import Mathlib

/-!
Verification of the dplnk repository's registry-wrapper core (`WinReg` in
`src/include/dplnk/subsystems/windows.h`) and the protocol-registration
helper (`dplnk::dplnk` in the two unnamed translation units).

The shallow embedding models:
* wide characters (`wchar_t`) as `Nat` code units, wide strings as `List Nat`;
* the native `HKEY` pointer as a `Nat` (0 standing for `nullptr`);
* `LSTATUS` codes as `Nat` with the relevant Win32 constants;
* thrown C++ exceptions as an explicit `Thrown` sum carried in `Except`;
* calls into the native registry API as explicit call descriptors or as
  replies drawn from an oracle `Nat → GetReply`, so that which primitive is
  invoked, with which arguments and in which order, is part of the model.
-/

/-! ### Win32 constants -/

def ERROR_SUCCESS : Nat := 0
def ERROR_FILE_NOT_FOUND : Nat := 2
def ERROR_INVALID_DATA : Nat := 13
def ERROR_MORE_DATA : Nat := 234

def HKEY_CLASSES_ROOT : Nat := 0x80000000
def HKEY_CURRENT_USER : Nat := 0x80000001
def HKEY_LOCAL_MACHINE : Nat := 0x80000002
def HKEY_USERS : Nat := 0x80000003
def HKEY_PERFORMANCE_DATA : Nat := 0x80000004
def HKEY_CURRENT_CONFIG : Nat := 0x80000005
def HKEY_CURRENT_USER_LOCAL_SETTINGS : Nat := 0x80000007
def HKEY_PERFORMANCE_TEXT : Nat := 0x80000050
def HKEY_PERFORMANCE_NLSTEXT : Nat := 0x80000060

def REG_SZ : Nat := 1
def REG_EXPAND_SZ : Nat := 2
def REG_BINARY : Nat := 3
def REG_MULTI_SZ : Nat := 7

/-- Largest value representable in a `DWORD` (32-bit unsigned). -/
def kMaxDwordValue : Nat := 4294967295

/-- `size_t` arithmetic on a 64-bit target wraps at `2 ^ 64`. -/
def SIZE_T_MOD : Nat := 18446744073709551616

/-- A thrown C++ exception: either `WinReg::RegException` (carrying the
`LSTATUS` code) or `std::overflow_error` (from `Details::safeCastSizeToDword`). -/
inductive Thrown where
  | regException (code : Nat) (msg : String)
  | overflowError (msg : String)
deriving DecidableEq

/-! ### Multi-string codec (`Details::buildMultiString` / `isDoubleNullTerminated`
/ `parseMultiString`) -/

/-- `Details::buildMultiString`: empty input gives the two-terminator buffer;
otherwise each string's contents followed by one `L'\0'` are appended in order
(the `s.empty()` test in the source only skips inserting zero characters, so
the appended block is `s ++ [0]` in every case), and a final `L'\0'` closes
the sequence. -/
def buildMultiString (data : List (List Nat)) : List Nat :=
  if data.isEmpty then [0, 0]
  else (data.foldl (fun acc s => acc ++ s ++ [0]) []) ++ [0]

/-- `Details::isDoubleNullTerminated`: at least two units long and the last two
units (`data[n]` and `data[n-1]` for `n = size - 1`) are both terminators. -/
def isDoubleNullTerminated (data : List Nat) : Bool :=
  if data.length < 2 then false
  else
    let n := data.length - 1
    (data.getD n 1 == 0) && (data.getD (n - 1) 1 == 0)

/-- The scanning loop of `Details::parseMultiString`, applied to the buffer with
its final unit removed (the source bounds the scan by `ptrEnd = data + size - 1`).
Each step reads one `wcslen`-delimited run (`takeWhile` up to the next
terminator), records it — empty runs included — and skips the run plus its
terminator. -/
def parseLoop (buf : List Nat) : List (List Nat) :=
  if h : buf = [] then []
  else
    (buf.takeWhile (fun c => c != 0)) ::
      parseLoop (buf.drop ((buf.takeWhile (fun c => c != 0)).length + 1))
termination_by buf.length
decreasing_by
  have hpos : 0 < buf.length := List.length_pos.mpr h
  simp only [List.length_drop]
  omega

/-- `Details::parseMultiString`: reject buffers that are not double-null
terminated with `RegException{ERROR_INVALID_DATA, ...}`; otherwise scan the
buffer up to (excluding) its final terminator. -/
def parseMultiString (data : List Nat) : Except Thrown (List (List Nat)) :=
  if !isDoubleNullTerminated data then
    Except.error (Thrown.regException ERROR_INVALID_DATA "Not a double-nullptr terminated string.")
  else
    Except.ok (parseLoop data.dropLast)

/-! ### `RegKey`: handle ownership -/

/-- `WinReg::RegKey`: the wrapped raw `HKEY` (`0` models `nullptr`). -/
structure RegKey where
  m_hKey : Nat := 0
deriving DecidableEq

/-- `RegKey::isValid`: the wrapped handle is non-null. -/
def RegKey.isValid (k : RegKey) : Bool :=
  k.m_hKey != 0

/-- `RegKey::isPredefined`: the wrapped handle is one of the well-known
predefined root handles, in the order tested by the source. -/
def RegKey.isPredefined (k : RegKey) : Bool :=
  (k.m_hKey == HKEY_CURRENT_USER)
  || (k.m_hKey == HKEY_LOCAL_MACHINE)
  || (k.m_hKey == HKEY_CLASSES_ROOT)
  || (k.m_hKey == HKEY_CURRENT_CONFIG)
  || (k.m_hKey == HKEY_CURRENT_USER_LOCAL_SETTINGS)
  || (k.m_hKey == HKEY_PERFORMANCE_DATA)
  || (k.m_hKey == HKEY_PERFORMANCE_NLSTEXT)
  || (k.m_hKey == HKEY_PERFORMANCE_TEXT)
  || (k.m_hKey == HKEY_USERS)

/-- `RegKey::close`: if the handle is valid, invoke `::RegCloseKey` on it
unless it is predefined, then null the member. The second component records
the handle passed to `::RegCloseKey`, or `none` when the native close
primitive was not invoked. -/
def RegKey.close (k : RegKey) : RegKey × Option Nat :=
  if k.isValid then
    if !k.isPredefined then (⟨0⟩, some k.m_hKey)
    else (⟨0⟩, none)
  else (k, none)

/-- The move constructor `RegKey::RegKey(RegKey&&)`: the destination copies the
raw handle and the source member is nulled. Returns (destination, source after
the move). -/
def RegKey.moveCtor (other : RegKey) : RegKey × RegKey :=
  (⟨other.m_hKey⟩, ⟨0⟩)

/-- The move assignment `RegKey::operator=(RegKey&&)`: guarded against
self-move (`this != &other`, modeled by `sameObject`) and against equal raw
handles; otherwise the destination closes its current handle, takes the
source's handle and nulls the source. Returns (destination after, source
after, handle released by the embedded `close()`, if any). -/
def RegKey.moveAssign (self other : RegKey) (sameObject : Bool) : RegKey × RegKey × Option Nat :=
  if !sameObject && (self.m_hKey != other.m_hKey) then
    ((⟨other.m_hKey⟩ : RegKey), (⟨0⟩ : RegKey), (RegKey.close self).2)
  else (self, other, none)

/-! ### `RegKey::deleteValue` / `tryDeleteValue` -/

/-- The native registry primitive invoked by a delete operation. -/
inductive RegApi where
  | deleteKeyW
  | deleteValueW
deriving DecidableEq

/-- `RegKey::deleteValue`: invokes `::RegDeleteKeyW(m_hKey, valueName)` (sic —
not `::RegDeleteValueW`) and throws a `RegException` carrying the returned
status when it is not `ERROR_SUCCESS`. The first component describes the
native call made, the `status` argument is the store's reply. -/
def RegKey.deleteValue (k : RegKey) (valueName : List Nat) (status : Nat) :
    (RegApi × Nat × List Nat) × Except Thrown Unit :=
  ((RegApi.deleteKeyW, k.m_hKey, valueName),
    if status != ERROR_SUCCESS then
      Except.error (Thrown.regException status "Cannot delete the value: RegDeleteValueW failed.")
    else Except.ok ())

/-- `RegKey::tryDeleteValue`: invokes `::RegDeleteValueW(m_hKey, valueName)`
and wraps the returned status in a `RegResult` (modeled by the raw code). -/
def RegKey.tryDeleteValue (k : RegKey) (valueName : List Nat) (status : Nat) :
    (RegApi × Nat × List Nat) × Nat :=
  ((RegApi.deleteValueW, k.m_hKey, valueName), status)

/-! ### `RegKey::loadKey` / `tryLoadKey` -/

/-- The arguments of a `::RegLoadKeyW` invocation. -/
structure LoadCall where
  hKey : Nat
  subKey : List Nat
  filename : List Nat
deriving DecidableEq

/-- `RegKey::loadKey`: first `close()`s the current handle, then invokes
`::RegLoadKeyW(m_hKey, subKey, filename)` on the now-null member; no handle is
ever attached afterwards. Returns (state after, handle released by the close,
the native call made, throwing outcome for the store's reply `status`). -/
def RegKey.loadKey (k : RegKey) (subKey filename : List Nat) (status : Nat) :
    RegKey × Option Nat × LoadCall × Except Thrown Unit :=
  let c := RegKey.close k
  (c.1, c.2, ⟨c.1.m_hKey, subKey, filename⟩,
    if status != ERROR_SUCCESS then
      Except.error (Thrown.regException status "Cannot load the key: RegLoadKeyW failed.")
    else Except.ok ())

/-- `RegKey::tryLoadKey`: same sequence as `loadKey`, with the store's reply
returned as a `RegResult` code instead of being thrown. -/
def RegKey.tryLoadKey (k : RegKey) (subKey filename : List Nat) (status : Nat) :
    RegKey × Option Nat × LoadCall × Nat :=
  let c := RegKey.close k
  (c.1, c.2, ⟨c.1.m_hKey, subKey, filename⟩, status)

/-! ### Variable-length getters (two-phase `::RegGetValueW` retrieval loop)

Each `::RegGetValueW` call on the queried value is modeled by a reply drawn
from an oracle indexed by the call number: `status` is the returned `LSTATUS`,
`dataSize` the byte count written through the size pointer, and `buffer` the
wide-character (resp. byte) content placed in the output buffer on a fill
call.  The loops are fueled: `none` models the (unbounded) C loop still
spinning after `fuel` iterations.  Besides the outcome, each loop returns the
index one past the last issued native call, so the number and order of store
calls is part of the result. -/

/-- One oracle reply to a `::RegGetValueW` invocation. -/
structure GetReply where
  status : Nat
  dataSize : Nat
  buffer : List Nat
deriving DecidableEq

/-- The retrieval loop of `RegKey::getStringValue` (throwing form): measure
(call `i`); any failure throws it; otherwise fill (call `i+1`);
`ERROR_MORE_DATA` restarts the loop; any other failure throws it; on success
the terminating null written by the store is dropped
(`resize(dataSize / sizeof(wchar_t) - 1)`). -/
def getStringValueLoop (oracle : Nat → GetReply) : Nat → Nat → Option (Except Thrown (List Nat) × Nat)
  | 0, _ => none
  | fuel + 1, i =>
    let r1 := oracle i
    if r1.status != ERROR_SUCCESS then
      some (Except.error (Thrown.regException r1.status
        "Cannot get the size of the string value: RegGetValueW failed."), i + 1)
    else
      let r2 := oracle (i + 1)
      if r2.status == ERROR_MORE_DATA then
        getStringValueLoop oracle fuel (i + 2)
      else if r2.status != ERROR_SUCCESS then
        some (Except.error (Thrown.regException r2.status
          "Cannot get string value: RegGetValueW failed."), i + 2)
      else
        some (Except.ok (r2.buffer.take (r2.dataSize / 2 - 1)), i + 2)

/-- The retrieval loop of `RegKey::tryGetMultiStringValue`: same two-phase
structure, native failures are returned as `RegResult` codes (inner
`Except.error`), and on success the filled buffer (resized to
`dataSize / sizeof(wchar_t)` units) is handed to `Details::parseMultiString`,
which may itself throw (outer `Except.error`). -/
def tryGetMultiStringValueLoop (oracle : Nat → GetReply) :
    Nat → Nat → Option (Except Thrown (Except Nat (List (List Nat))) × Nat)
  | 0, _ => none
  | fuel + 1, i =>
    let r1 := oracle i
    if r1.status != ERROR_SUCCESS then
      some (Except.ok (Except.error r1.status), i + 1)
    else
      let r2 := oracle (i + 1)
      if r2.status == ERROR_MORE_DATA then
        tryGetMultiStringValueLoop oracle fuel (i + 2)
      else if r2.status != ERROR_SUCCESS then
        some (Except.ok (Except.error r2.status), i + 2)
      else
        some ((parseMultiString (r2.buffer.take (r2.dataSize / 2))).map Except.ok, i + 2)

/-- The retrieval loop of `RegKey::getBinaryValue` (throwing form): after a
successful measuring call reporting `dataSize == 0` the empty vector is
returned at once, before the fill call is issued. -/
def getBinaryValueLoop (oracle : Nat → GetReply) : Nat → Nat → Option (Except Thrown (List Nat) × Nat)
  | 0, _ => none
  | fuel + 1, i =>
    let r1 := oracle i
    if r1.status != ERROR_SUCCESS then
      some (Except.error (Thrown.regException r1.status
        "Cannot get the size of the binary value: RegGetValueW failed."), i + 1)
    else if r1.dataSize == 0 then
      some (Except.ok [], i + 1)
    else
      let r2 := oracle (i + 1)
      if r2.status == ERROR_MORE_DATA then
        getBinaryValueLoop oracle fuel (i + 2)
      else if r2.status != ERROR_SUCCESS then
        some (Except.error (Thrown.regException r2.status
          "Cannot get the binary data: RegGetValueW failed."), i + 2)
      else
        some (Except.ok (r2.buffer.take r2.dataSize), i + 2)

/-- The retrieval loop of `RegKey::tryGetBinaryValue`: as `getBinaryValueLoop`
with native failures returned as `RegResult` codes instead of thrown. -/
def tryGetBinaryValueLoop (oracle : Nat → GetReply) :
    Nat → Nat → Option (Except Nat (List Nat) × Nat)
  | 0, _ => none
  | fuel + 1, i =>
    let r1 := oracle i
    if r1.status != ERROR_SUCCESS then
      some (Except.error r1.status, i + 1)
    else if r1.dataSize == 0 then
      some (Except.ok [], i + 1)
    else
      let r2 := oracle (i + 1)
      if r2.status == ERROR_MORE_DATA then
        tryGetBinaryValueLoop oracle fuel (i + 2)
      else if r2.status != ERROR_SUCCESS then
        some (Except.error r2.status, i + 2)
      else
        some (Except.ok (r2.buffer.take r2.dataSize), i + 2)

/-! ### Size-checked setters (`Details::sizeToDwordCastIsSafe` /
`safeCastSizeToDword` and the `RegSetValueExW` wrappers)

The `_WIN64` branch of the guard is modeled (on that target `size_t` is wider
than `DWORD` and the check is live; the non-`_WIN64` branch of
`safeCastSizeToDword` is `_ASSERTE(...); static_assert();`, which is
ill-formed and returns no value).  Sizes are computed in `size_t` arithmetic,
hence reduced modulo `2 ^ 64`. -/

/-- `Details::sizeToDwordCastIsSafe` (`_WIN64` branch): `size` fits a `DWORD`. -/
def sizeToDwordCastIsSafe (size : Nat) : Bool :=
  if size > kMaxDwordValue then false else true

/-- `Details::safeCastSizeToDword` (`_WIN64` branch): throws
`std::overflow_error` when the value does not fit a `DWORD`. -/
def safeCastSizeToDword (size : Nat) : Except Thrown Nat :=
  if !sizeToDwordCastIsSafe size then
    Except.error (Thrown.overflowError "Overflow when casting size_t to DWORD.")
  else Except.ok size

/-- One `::RegSetValueExW` invocation: handle, value name, registry type and
transmitted byte count. -/
structure SetCall where
  hKey : Nat
  valueName : List Nat
  regType : Nat
  dataSize : Nat
deriving DecidableEq

/-- `RegKey::setStringValue`: transmitted size is
`(data.length() + 1) * sizeof(wchar_t)` bytes, checked through
`safeCastSizeToDword` before `::RegSetValueExW(m_hKey, name, REG_SZ, ...)` is
invoked; a non-success store reply (`status`) is thrown. The second component
lists the store calls actually issued. -/
def RegKey.setStringValue (k : RegKey) (valueName data : List Nat) (status : Nat) :
    Except Thrown Unit × List SetCall :=
  match safeCastSizeToDword ((data.length + 1) * 2 % SIZE_T_MOD) with
  | Except.error e => (Except.error e, [])
  | Except.ok dataSize =>
    (if status != ERROR_SUCCESS then
      Except.error (Thrown.regException status "Cannot write string value: RegSetValueExW failed.")
    else Except.ok (),
    [⟨k.m_hKey, valueName, REG_SZ, dataSize⟩])

/-- `RegKey::setExpandStringValue`: as `setStringValue` with `REG_EXPAND_SZ`. -/
def RegKey.setExpandStringValue (k : RegKey) (valueName data : List Nat) (status : Nat) :
    Except Thrown Unit × List SetCall :=
  match safeCastSizeToDword ((data.length + 1) * 2 % SIZE_T_MOD) with
  | Except.error e => (Except.error e, [])
  | Except.ok dataSize =>
    (if status != ERROR_SUCCESS then
      Except.error (Thrown.regException status
        "Cannot write expand string value: RegSetValueExW failed.")
    else Except.ok (),
    [⟨k.m_hKey, valueName, REG_EXPAND_SZ, dataSize⟩])

/-- `RegKey::setMultiStringValue`: encodes `data` with
`Details::buildMultiString`, checks `multiString.size() * sizeof(wchar_t)`
through `safeCastSizeToDword`, then writes with `REG_MULTI_SZ`. -/
def RegKey.setMultiStringValue (k : RegKey) (valueName : List Nat)
    (data : List (List Nat)) (status : Nat) : Except Thrown Unit × List SetCall :=
  match safeCastSizeToDword ((buildMultiString data).length * 2 % SIZE_T_MOD) with
  | Except.error e => (Except.error e, [])
  | Except.ok dataSize =>
    (if status != ERROR_SUCCESS then
      Except.error (Thrown.regException status
        "Cannot write multi-string value: RegSetValueExW failed.")
    else Except.ok (),
    [⟨k.m_hKey, valueName, REG_MULTI_SZ, dataSize⟩])

/-- `RegKey::setBinaryValue` (vector overload): checks `data.size()` through
`safeCastSizeToDword`, then writes with `REG_BINARY`. -/
def RegKey.setBinaryValue (k : RegKey) (valueName data : List Nat) (status : Nat) :
    Except Thrown Unit × List SetCall :=
  match safeCastSizeToDword (data.length % SIZE_T_MOD) with
  | Except.error e => (Except.error e, [])
  | Except.ok dataSize =>
    (if status != ERROR_SUCCESS then
      Except.error (Thrown.regException status "Cannot write binary value: RegSetValueExW failed.")
    else Except.ok (),
    [⟨k.m_hKey, valueName, REG_BINARY, dataSize⟩])

/-- `RegKey::trySetStringValue`: same size check (which may still throw, as the
source's own note records), the store reply is returned as a `RegResult` code. -/
def RegKey.trySetStringValue (k : RegKey) (valueName data : List Nat) (status : Nat) :
    Except Thrown Nat × List SetCall :=
  match safeCastSizeToDword ((data.length + 1) * 2 % SIZE_T_MOD) with
  | Except.error e => (Except.error e, [])
  | Except.ok dataSize => (Except.ok status, [⟨k.m_hKey, valueName, REG_SZ, dataSize⟩])

/-- `RegKey::trySetExpandStringValue`: as `trySetStringValue` with `REG_EXPAND_SZ`. -/
def RegKey.trySetExpandStringValue (k : RegKey) (valueName data : List Nat) (status : Nat) :
    Except Thrown Nat × List SetCall :=
  match safeCastSizeToDword ((data.length + 1) * 2 % SIZE_T_MOD) with
  | Except.error e => (Except.error e, [])
  | Except.ok dataSize => (Except.ok status, [⟨k.m_hKey, valueName, REG_EXPAND_SZ, dataSize⟩])

/-- `RegKey::trySetMultiStringValue`: as `setMultiStringValue` with the store
reply returned as a `RegResult` code. -/
def RegKey.trySetMultiStringValue (k : RegKey) (valueName : List Nat)
    (data : List (List Nat)) (status : Nat) : Except Thrown Nat × List SetCall :=
  match safeCastSizeToDword ((buildMultiString data).length * 2 % SIZE_T_MOD) with
  | Except.error e => (Except.error e, [])
  | Except.ok dataSize => (Except.ok status, [⟨k.m_hKey, valueName, REG_MULTI_SZ, dataSize⟩])

/-- `RegKey::trySetBinaryValue` (vector overload): as `setBinaryValue` with the
store reply returned as a `RegResult` code. -/
def RegKey.trySetBinaryValue (k : RegKey) (valueName data : List Nat) (status : Nat) :
    Except Thrown Nat × List SetCall :=
  match safeCastSizeToDword (data.length % SIZE_T_MOD) with
  | Except.error e => (Except.error e, [])
  | Except.ok dataSize => (Except.ok status, [⟨k.m_hKey, valueName, REG_BINARY, dataSize⟩])

/-! ### The `dplnk::dplnk` registration helper

The repository carries two definitions of `dplnk::dplnk` (the two unnamed
translation units).  Both are modeled as the ordered list of registry
operations they perform when every native call succeeds; every operation uses
the throwing `RegKey` interface (`RegKey{parent, subKey}` constructor, which
calls `create`, and `setStringValue`).  `std::string` → `std::wstring`
conversion copies code units, modeled as the identity on `List Nat`. -/

/-- A registry operation issued by the helper: a key is identified by the root
handle and the sub-key path it was created with. -/
inductive RegOp where
  | createKey (root : Nat) (subKey : List Nat)
  | setStringValue (root : Nat) (subKey : List Nat) (valueName : List Nat) (value : List Nat)
deriving DecidableEq

/-- Code units of a wide string literal. -/
def ws (s : String) : List Nat :=
  s.toList.map Char.toNat

/-- The `dplnk::dplnk` variant of the first unnamed translation unit: three
keys under `HKEY_CLASSES_ROOT` (the protocol key, `\DefaultIcon`,
`\shell\open\command`) with the description, the `URL Protocol` marker, the
icon path, the `%1` command line and any caller-supplied extra pairs. -/
def dplnkOpsA (path : List Nat) (protocol : List Nat)
    (d : Option (List (List Nat × List Nat))) : List RegOp :=
  [RegOp.createKey HKEY_CLASSES_ROOT protocol,
    RegOp.setStringValue HKEY_CLASSES_ROOT protocol []
      (ws "URL: " ++ protocol ++ ws " Protocol"),
    RegOp.setStringValue HKEY_CLASSES_ROOT protocol (ws "URL Protocol") [],
    RegOp.createKey HKEY_CLASSES_ROOT (protocol ++ ws "\\DefaultIcon"),
    RegOp.setStringValue HKEY_CLASSES_ROOT (protocol ++ ws "\\DefaultIcon") []
      (ws "C:\\Windows\\System32\\url.dll,0"),
    RegOp.createKey HKEY_CLASSES_ROOT (protocol ++ ws "\\shell\\open\\command"),
    RegOp.setStringValue HKEY_CLASSES_ROOT (protocol ++ ws "\\shell\\open\\command") []
      (ws "\"" ++ path ++ ws "\" %1")]
  ++ (match d with
      | none => []
      | some kvs => kvs.map (fun kv =>
          RegOp.setStringValue HKEY_CLASSES_ROOT (protocol ++ ws "\\shell\\open\\command")
            kv.1 kv.2))

/-- The `dplnk::dplnk` variant of the second unnamed translation unit: a single
`\shell\open\command` key under `HKEY_CURRENT_USER` with the `%1` command line
and any caller-supplied extra pairs — no description, no marker, no icon. -/
def dplnkOpsB (path : List Nat) (protocol : List Nat)
    (d : Option (List (List Nat × List Nat))) : List RegOp :=
  [RegOp.createKey HKEY_CURRENT_USER (protocol ++ ws "\\shell\\open\\command"),
    RegOp.setStringValue HKEY_CURRENT_USER (protocol ++ ws "\\shell\\open\\command") []
      (ws "\"" ++ path ++ ws "\" %1")]
  ++ (match d with
      | none => []
      | some kvs => kvs.map (fun kv =>
          RegOp.setStringValue HKEY_CURRENT_USER (protocol ++ ws "\\shell\\open\\command")
            kv.1 kv.2))

/-- The string-value writes of an operation list, as
(sub-key, value name, value) triples. -/
def stringWritesOf (ops : List RegOp) : List (List Nat × List Nat × List Nat) :=
  ops.filterMap (fun op =>
    match op with
    | RegOp.setStringValue _ subKey name value => some (subKey, name, value)
    | RegOp.createKey _ _ => none)

/-- Concrete reply sequence used as a witness input for the retrieval loop:
measure succeeds, fill reports `ERROR_MORE_DATA`, next measure fails with 5
(`ERROR_ACCESS_DENIED`). -/
def c6Oracle (n : Nat) : GetReply :=
  ([⟨ERROR_SUCCESS, 8, [104, 105, 0, 0]⟩, ⟨ERROR_MORE_DATA, 12, []⟩,
    ⟨5, 0, []⟩] : List GetReply).getD n ⟨0, 0, []⟩

/-- Concrete reply sequence used as a witness input for the binary getters:
the measuring call succeeds and reports a zero size. -/
def c10Oracle : Nat → GetReply :=
  fun _ => ⟨ERROR_SUCCESS, 0, []⟩

/-- A byte (or wide-character) buffer of `2 ^ 33` elements, used as a witness
input for the size-overflow guard. -/
def bigBytes : List Nat :=
  List.replicate 8589934592 0

/-! ### Helper lemmas -/

theorem parseLoop_nil : parseLoop [] = [] := by
  unfold parseLoop
  rfl

theorem takeWhile_append_zero (s t : List Nat) (hs : ∀ c ∈ s, c ≠ 0) :
    (s ++ 0 :: t).takeWhile (fun c => c != 0) = s := by
  induction s with
  | nil => simp [List.takeWhile_cons]
  | cons a s ih =>
      have ha : a ≠ 0 := hs a (by simp)
      simp only [List.cons_append, List.takeWhile_cons]
      simp [ha, ih (fun c hc => hs c (by simp [hc]))]

theorem drop_append_zero (s t : List Nat) :
    (s ++ 0 :: t).drop (s.length + 1) = t := by
  induction s with
  | nil => simp
  | cons a s ih => simp

theorem parseLoop_block (s t : List Nat) (hs : ∀ c ∈ s, c ≠ 0) :
    parseLoop (s ++ 0 :: t) = s :: parseLoop t := by
  rw [parseLoop]
  rw [dif_neg (by simp)]
  rw [takeWhile_append_zero s t hs, drop_append_zero s t]

theorem parseLoop_join (data : List (List Nat)) (h : ∀ s ∈ data, ∀ c ∈ s, c ≠ 0) :
    parseLoop ((data.map (fun s => s ++ [0])).flatten) = data := by
  induction data with
  | nil => simp [parseLoop_nil]
  | cons s rest ih =>
      have hblock : ((s :: rest).map (fun u => u ++ [0])).flatten
          = s ++ 0 :: ((rest.map (fun u => u ++ [0])).flatten) := by
        simp
      rw [hblock, parseLoop_block s _ (h s (by simp)),
        ih (fun u hu c hc => h u (by simp [hu]) c hc)]

theorem foldl_append_build (data : List (List Nat)) (acc : List Nat) :
    data.foldl (fun acc s => acc ++ s ++ [0]) acc
      = acc ++ (data.map (fun s => s ++ [0])).flatten := by
  induction data generalizing acc with
  | nil => simp
  | cons s rest ih =>
      rw [List.foldl_cons, ih]
      simp

theorem buildMultiString_eq (data : List (List Nat)) (h : data ≠ []) :
    buildMultiString data = (data.map (fun s => s ++ [0])).flatten ++ [0] := by
  have hne : data.isEmpty = false := by
    cases data with
    | nil => exact absurd rfl h
    | cons s rest => rfl
  simp only [buildMultiString, hne]
  rw [if_neg (by simp), foldl_append_build]
  simp

theorem join_blocks_concat (data : List (List Nat)) (h : data ≠ []) :
    ∃ Z, (data.map (fun s => s ++ [0])).flatten = Z ++ [0] := by
  induction data with
  | nil => exact absurd rfl h
  | cons s rest ih =>
      cases rest with
      | nil => exact ⟨s, by simp⟩
      | cons u rest =>
          obtain ⟨Z, hZ⟩ := ih (by simp)
          refine ⟨(s ++ [0]) ++ Z, ?_⟩
          simp only [List.map_cons, List.flatten_cons] at hZ ⊢
          rw [hZ, ← List.append_assoc]

theorem isDoubleNullTerminated_concat_two (Z : List Nat) :
    isDoubleNullTerminated (Z ++ [0, 0]) = true := by
  have hlen : (Z ++ [0, 0]).length = Z.length + 2 := by simp
  simp only [isDoubleNullTerminated, hlen]
  rw [if_neg (by omega)]
  have e1 : Z.length + 2 - 1 = Z.length + 1 := by omega
  rw [e1]
  have g1 : (Z ++ [0, 0]).getD (Z.length + 1) 1 = 0 := by
    rw [List.getD_append_right _ _ _ _ (by omega)]
    have : Z.length + 1 - Z.length = 1 := by omega
    rw [this]
    rfl
  have g2 : (Z ++ [0, 0]).getD (Z.length + 1 - 1) 1 = 0 := by
    rw [List.getD_append_right _ _ _ _ (by omega)]
    have : Z.length + 1 - 1 - Z.length = 0 := by omega
    rw [this]
    rfl
  rw [g1, g2]
  rfl

theorem isDoubleNullTerminated_two (l : List Nat) (b a : Nat) :
    isDoubleNullTerminated (l ++ [b, a]) = ((a == 0) && (b == 0)) := by
  have hlen : (l ++ [b, a]).length = l.length + 2 := by simp
  simp only [isDoubleNullTerminated, hlen]
  rw [if_neg (by omega)]
  have e1 : l.length + 2 - 1 = l.length + 1 := by omega
  rw [e1]
  have g1 : (l ++ [b, a]).getD (l.length + 1) 1 = a := by
    rw [List.getD_append_right _ _ _ _ (by omega)]
    have : l.length + 1 - l.length = 1 := by omega
    rw [this]
    rfl
  have g2 : (l ++ [b, a]).getD (l.length + 1 - 1) 1 = b := by
    rw [List.getD_append_right _ _ _ _ (by omega)]
    have : l.length + 1 - 1 - l.length = 0 := by omega
    rw [this]
    rfl
  rw [g1, g2]

theorem isDoubleNullTerminated_true_iff (data : List Nat) :
    isDoubleNullTerminated data = true
      ↔ 2 ≤ data.length ∧ data.getLast? = some 0 ∧ data.dropLast.getLast? = some 0 := by
  induction data using List.reverseRecOn with
  | nil => simp [isDoubleNullTerminated]
  | append_singleton l a ihl =>
      cases l using List.reverseRecOn with
      | nil => simp [isDoubleNullTerminated]
      | append_singleton m b ihm =>
          have hsplit : (m ++ [b]) ++ [a] = m ++ [b, a] := by simp
          rw [hsplit, isDoubleNullTerminated_two]
          have hlast : (m ++ [b, a]).getLast? = some a := by
            rw [show (m ++ [b, a]) = (m ++ [b]) ++ [a] from by simp]
            exact List.getLast?_concat _
          have hdrop : (m ++ [b, a]).dropLast = m ++ [b] := by
            rw [show (m ++ [b, a]) = (m ++ [b]) ++ [a] from by simp]
            exact List.dropLast_concat
          rw [hlast, hdrop, List.getLast?_concat]
          constructor
          · intro h
            have hab : a = 0 ∧ b = 0 := by simpa using h
            exact ⟨by simp, by simp [hab.1], by simp [hab.2]⟩
          · rintro ⟨-, h1, h2⟩
            have ha : a = 0 := by simpa using h1
            have hb : b = 0 := by simpa using h2
            simp [ha, hb]

theorem close_fst_hKey (k : RegKey) : (RegKey.close k).1.m_hKey = 0 := by
  by_cases hv : k.isValid
  · by_cases hp : k.isPredefined <;> simp [RegKey.close, hv, hp]
  · have h0 : k.m_hKey = 0 := by
      simpa [RegKey.isValid] using hv
    simp [RegKey.close, hv, h0]

/-! ### Claim theorems -/

/-- C1 (counterexample): decoding the encoding of the empty list does not
return the empty list — `buildMultiString []` is the bare two-terminator
buffer `[0, 0]`, which `parseMultiString` decodes as the one-element list
containing the empty string. -/
theorem multiString_roundtrip_fails_on_empty :
    parseMultiString (buildMultiString []) ≠ Except.ok ([] : List (List Nat)) := by
  have h1 : buildMultiString [] = [0, 0] := rfl
  have h2 : parseLoop [0] = [[]] := by
    have hb := parseLoop_block [] [] (by simp)
    simpa [parseLoop_nil] using hb
  have h3 : parseMultiString [0, 0] = Except.ok [[]] := by
    unfold parseMultiString
    rw [show isDoubleNullTerminated [0, 0] = true from rfl]
    simpa using h2
  rw [h1, h3]
  simp

/-- C1 (amended): for every non-empty list of wide strings none of which
contains an embedded terminator, decoding the encoding returns the original
list: `parseMultiString (buildMultiString data) = ok data`.  (Encoding the
empty list yields the same buffer as encoding `[""]`, so the empty list is
not recovered; see the counterexample.) -/
theorem multiString_roundtrip (data : List (List Nat)) (hne : data ≠ [])
    (h : ∀ s ∈ data, ∀ c ∈ s, c ≠ 0) :
    parseMultiString (buildMultiString data) = Except.ok data := by
  obtain ⟨Z, hZ⟩ := join_blocks_concat data hne
  rw [buildMultiString_eq data hne]
  unfold parseMultiString
  have hd : isDoubleNullTerminated ((data.map (fun s => s ++ [0])).flatten ++ [0]) = true := by
    rw [hZ, show (Z ++ [0]) ++ [0] = Z ++ [0, 0] from by simp]
    exact isDoubleNullTerminated_concat_two Z
  rw [hd]
  simp only [Bool.not_true, Bool.false_eq_true, if_false]
  rw [List.dropLast_concat, parseLoop_join data h]

/-- C1 (witness): the round-trip theorem applied to the one-element list
`[ "A" ]` (code unit 65). -/
theorem multiString_roundtrip_witness :
    (([[65]] : List (List Nat)) ≠ [])
    ∧ (∀ s ∈ ([[65]] : List (List Nat)), ∀ c ∈ s, c ≠ 0)
    ∧ parseMultiString (buildMultiString [[65]]) = Except.ok [[65]] :=
  ⟨by decide, by decide, multiString_roundtrip [[65]] (by decide) (by decide)⟩

/-- C5: every buffer shorter than two units, or whose last two units are not
both terminators, makes `parseMultiString` fail with the
`ERROR_INVALID_DATA` malformed-multi-string exception and produce no decoded
list. -/
theorem parseMultiString_malformed (data : List Nat)
    (h : data.length < 2 ∨ data.getLast? ≠ some 0 ∨ data.dropLast.getLast? ≠ some 0) :
    parseMultiString data
      = Except.error (Thrown.regException ERROR_INVALID_DATA
          "Not a double-nullptr terminated string.") := by
  have hfalse : isDoubleNullTerminated data = false := by
    cases hb : isDoubleNullTerminated data
    · rfl
    · obtain ⟨hlen, hlast, hdrop⟩ := (isDoubleNullTerminated_true_iff data).mp hb
      rcases h with h | h | h
      · omega
      · exact absurd hlast h
      · exact absurd hdrop h
  unfold parseMultiString
  rw [hfalse]
  rfl

/-- C5 (witness): the malformed-decode theorem applied to the one-unit buffer
`[65]`. -/
theorem parseMultiString_malformed_witness :
    (([65] : List Nat).length < 2 ∨ ([65] : List Nat).getLast? ≠ some 0
      ∨ ([65] : List Nat).dropLast.getLast? ≠ some 0)
    ∧ parseMultiString [65]
        = Except.error (Thrown.regException ERROR_INVALID_DATA
            "Not a double-nullptr terminated string.") :=
  ⟨by decide, parseMultiString_malformed [65] (by decide)⟩

/-- C2 (counterexample): closing a Handle wrapping the predefined root
`HKEY_CURRENT_USER` indeed does not invoke the native close primitive, but the
Handle does not report valid afterwards — `close()` nulls the wrapped member
unconditionally — so the claimed conjunction is false. -/
theorem close_predefined_counterexample :
    ¬ ((RegKey.close ⟨HKEY_CURRENT_USER⟩).2 = none
        ∧ (RegKey.close ⟨HKEY_CURRENT_USER⟩).1.isValid = true) := by
  decide

/-- C2 (amended): `close()` on a Handle wrapping a predefined root never
invokes the native close primitive, but it nulls the wrapped reference, so
the Handle reports invalid (not valid) afterwards. -/
theorem close_predefined_detaches (k : RegKey) (hp : k.isPredefined = true) :
    (RegKey.close k).2 = none ∧ (RegKey.close k).1.isValid = false := by
  have hne : k.m_hKey ≠ 0 := by
    simp only [RegKey.isPredefined, Bool.or_eq_true, beq_iff_eq, HKEY_CURRENT_USER,
      HKEY_LOCAL_MACHINE, HKEY_CLASSES_ROOT, HKEY_CURRENT_CONFIG,
      HKEY_CURRENT_USER_LOCAL_SETTINGS, HKEY_PERFORMANCE_DATA, HKEY_PERFORMANCE_NLSTEXT,
      HKEY_PERFORMANCE_TEXT, HKEY_USERS] at hp
    rcases hp with ((((((((h | h) | h) | h) | h) | h) | h) | h) | h) <;> omega
  simp [RegKey.close, RegKey.isValid, hne, hp]

/-- C2 (witness): the amended theorem applied to `HKEY_CURRENT_USER`. -/
theorem close_predefined_witness :
    (RegKey.isPredefined ⟨HKEY_CURRENT_USER⟩ = true)
    ∧ ((RegKey.close ⟨HKEY_CURRENT_USER⟩).2 = none
        ∧ (RegKey.close ⟨HKEY_CURRENT_USER⟩).1.isValid = false) :=
  ⟨by decide, close_predefined_detaches ⟨HKEY_CURRENT_USER⟩ (by decide)⟩

/-- C3: the throwing `deleteValue` and the non-throwing `tryDeleteValue` do
not invoke the same underlying primitive — on the same Handle and value name,
`deleteValue` calls the delete-key primitive `RegDeleteKeyW` while
`tryDeleteValue` calls the delete-value primitive `RegDeleteValueW` (the
source of `deleteValue` even names `RegDeleteValueW` in its error message). -/
theorem deleteValue_uses_delete_key_primitive :
    (RegKey.deleteValue ⟨5⟩ [120] ERROR_SUCCESS).1.1 = RegApi.deleteKeyW
    ∧ (RegKey.tryDeleteValue ⟨5⟩ [120] ERROR_SUCCESS).1.1 = RegApi.deleteValueW
    ∧ (RegKey.deleteValue ⟨5⟩ [120] ERROR_SUCCESS).1
        ≠ (RegKey.tryDeleteValue ⟨5⟩ [120] ERROR_SUCCESS).1 := by
  refine ⟨rfl, rfl, ?_⟩
  decide

/-- C4 (counterexample): `loadKey` on a Handle owning reference `5`, with the
load primitive succeeding (`ERROR_SUCCESS`), leaves the Handle reporting
invalid — no loaded key is ever attached — refuting the claim that on success
the Handle owns the loaded key. -/
theorem loadKey_counterexample :
    (RegKey.loadKey ⟨5⟩ [] [] ERROR_SUCCESS).2.2.2 = Except.ok ()
    ∧ ¬ ((RegKey.loadKey ⟨5⟩ [] [] ERROR_SUCCESS).1.isValid = true) := by
  refine ⟨rfl, ?_⟩
  decide

/-- C4 (amended): `loadKey` and `tryLoadKey` first close the currently owned
reference (releasing exactly what `close()` would release), then invoke the
load primitive with the now-null wrapped reference; no key is attached and
the Handle reports invalid afterwards, whatever the primitive's status. -/
theorem loadKey_closes_and_never_attaches (k : RegKey) (s f : List Nat) (st : Nat) :
    (RegKey.loadKey k s f st).1.isValid = false
    ∧ (RegKey.loadKey k s f st).2.1 = (RegKey.close k).2
    ∧ (RegKey.loadKey k s f st).2.2.1.hKey = 0
    ∧ (RegKey.tryLoadKey k s f st).1.isValid = false
    ∧ (RegKey.tryLoadKey k s f st).2.2.1.hKey = 0
    ∧ (RegKey.tryLoadKey k s f st).2.2.2 = st := by
  have hc := close_fst_hKey k
  refine ⟨?_, rfl, ?_, ?_, ?_, rfl⟩ <;>
    simp [RegKey.loadKey, RegKey.tryLoadKey, RegKey.isValid, hc]

/-- C7: moving a Handle that owns a reference — by move construction, or by
move assignment into a fresh Handle — transfers the raw reference to the
destination, leaves the source empty (`isValid() == false`), and a subsequent
`close()` on the moved-from Handle does nothing and releases nothing. -/
theorem regKey_move_transfers (h : RegKey) (hown : h.m_hKey ≠ 0) :
    (RegKey.moveCtor h).1.m_hKey = h.m_hKey
    ∧ (RegKey.moveCtor h).2.isValid = false
    ∧ RegKey.close (RegKey.moveCtor h).2 = ((RegKey.moveCtor h).2, none)
    ∧ RegKey.moveAssign ⟨0⟩ h false = (⟨h.m_hKey⟩, ⟨0⟩, none)
    ∧ RegKey.close (⟨0⟩ : RegKey) = (⟨0⟩, none) := by
  refine ⟨rfl, rfl, rfl, ?_, rfl⟩
  have hne : ((0 : Nat) != h.m_hKey) = true := by
    simpa using (Ne.symm hown)
  simp [RegKey.moveAssign, hne]
  rfl

/-- C7 (witness): the move-transfer theorem applied to a Handle owning
reference `5`. -/
theorem regKey_move_transfers_witness :
    (RegKey.m_hKey ⟨5⟩ ≠ 0)
    ∧ ((RegKey.moveCtor ⟨5⟩).1.m_hKey = RegKey.m_hKey ⟨5⟩
        ∧ (RegKey.moveCtor ⟨5⟩).2.isValid = false
        ∧ RegKey.close (RegKey.moveCtor ⟨5⟩).2 = ((RegKey.moveCtor ⟨5⟩).2, none)
        ∧ RegKey.moveAssign ⟨0⟩ ⟨5⟩ false = (⟨RegKey.m_hKey ⟨5⟩⟩, ⟨0⟩, none)
        ∧ RegKey.close (⟨0⟩ : RegKey) = (⟨0⟩, none)) :=
  ⟨by decide, regKey_move_transfers ⟨5⟩ (by decide)⟩

theorem getStringValueLoop_skip (oracle : Nat → GetReply) (fuel i : Nat)
    (h1 : (oracle i).status = ERROR_SUCCESS)
    (h2 : (oracle (i + 1)).status = ERROR_MORE_DATA) :
    getStringValueLoop oracle (fuel + 1) i = getStringValueLoop oracle fuel (i + 2) := by
  simp [getStringValueLoop, h1, h2]

theorem tryGetMultiStringValueLoop_skip (oracle : Nat → GetReply) (fuel i : Nat)
    (h1 : (oracle i).status = ERROR_SUCCESS)
    (h2 : (oracle (i + 1)).status = ERROR_MORE_DATA) :
    tryGetMultiStringValueLoop oracle (fuel + 1) i
      = tryGetMultiStringValueLoop oracle fuel (i + 2) := by
  simp [tryGetMultiStringValueLoop, h1, h2]

/-- C6: in the two-phase retrieval loops (shown here for `getStringValue` and
`tryGetMultiStringValue`), after any number `k` of repeats — each one
justified by a successful measuring call followed by a fill call reporting
`ERROR_MORE_DATA` — the measuring call failing with any status terminates the
loop reporting exactly that status, and the fill call failing with any status
other than `ERROR_MORE_DATA` terminates the loop reporting exactly that
status; the loop therefore re-enters only on the fill call's buffer-too-small
status, and never repeats on a generic error. -/
theorem retrieval_loop_repeats_only_on_more_data (oracle : Nat → GetReply)
    (fuel k i : Nat) (hk : k < fuel)
    (hprev : ∀ j, j < k → (oracle (i + 2 * j)).status = ERROR_SUCCESS
        ∧ (oracle (i + 2 * j + 1)).status = ERROR_MORE_DATA) :
    ((oracle (i + 2 * k)).status ≠ ERROR_SUCCESS →
        getStringValueLoop oracle fuel i
          = some (Except.error (Thrown.regException (oracle (i + 2 * k)).status
              "Cannot get the size of the string value: RegGetValueW failed."), i + 2 * k + 1)
        ∧ tryGetMultiStringValueLoop oracle fuel i
          = some (Except.ok (Except.error (oracle (i + 2 * k)).status), i + 2 * k + 1))
    ∧ ((oracle (i + 2 * k)).status = ERROR_SUCCESS →
        (oracle (i + 2 * k + 1)).status ≠ ERROR_MORE_DATA →
        (oracle (i + 2 * k + 1)).status ≠ ERROR_SUCCESS →
        getStringValueLoop oracle fuel i
          = some (Except.error (Thrown.regException (oracle (i + 2 * k + 1)).status
              "Cannot get string value: RegGetValueW failed."), i + 2 * k + 2)
        ∧ tryGetMultiStringValueLoop oracle fuel i
          = some (Except.ok (Except.error (oracle (i + 2 * k + 1)).status), i + 2 * k + 2)) := by
  induction k generalizing fuel i with
  | zero =>
      obtain ⟨f, rfl⟩ : ∃ f, fuel = f + 1 := ⟨fuel - 1, by omega⟩
      simp only [Nat.mul_zero, Nat.add_zero]
      constructor
      · intro hfail
        constructor
        · simp [getStringValueLoop, hfail]
        · simp [tryGetMultiStringValueLoop, hfail]
      · intro hok hmd hfail
        constructor
        · simp [getStringValueLoop, hok, hmd, hfail]
        · simp [tryGetMultiStringValueLoop, hok, hmd, hfail]
  | succ k ih =>
      obtain ⟨f, rfl⟩ : ∃ f, fuel = f + 1 := ⟨fuel - 1, by omega⟩
      have h0 := hprev 0 (by omega)
      simp only [Nat.mul_zero, Nat.add_zero] at h0
      rw [getStringValueLoop_skip oracle f i h0.1 h0.2,
        tryGetMultiStringValueLoop_skip oracle f i h0.1 h0.2,
        show i + 2 * (k + 1) = i + 2 + 2 * k from by omega]
      exact ih f (i + 2) (by omega) (fun j hj => by
        have h := hprev (j + 1) (by omega)
        rw [show i + 2 * (j + 1) = i + 2 + 2 * j from by omega] at h
        exact h)

/-- C6 (witness): the loop theorem applied to a concrete reply sequence —
measure ok, fill `ERROR_MORE_DATA` (one legitimate repeat), second measure
failing with status 5 — both loops stop after the third call and report 5. -/
theorem retrieval_loop_witness :
    ((c6Oracle 2).status ≠ ERROR_SUCCESS)
    ∧ (getStringValueLoop c6Oracle 2 0
        = some (Except.error (Thrown.regException (c6Oracle 2).status
            "Cannot get the size of the string value: RegGetValueW failed."), 3)
      ∧ tryGetMultiStringValueLoop c6Oracle 2 0
        = some (Except.ok (Except.error (c6Oracle 2).status), 3)) := by
  have h := (retrieval_loop_repeats_only_on_more_data c6Oracle 2 1 0 (by omega)
    (fun j hj => by
      have hj0 : j = 0 := by omega
      subst hj0
      exact ⟨rfl, rfl⟩)).1 (by decide)
  exact ⟨by decide, h⟩

/-- C10: when the measuring call of the binary getters succeeds and reports a
required size of zero, both `getBinaryValue` and `tryGetBinaryValue` return
the empty byte vector at once, and the fill call is never issued (only the
one call at index `i` is consumed). -/
theorem binary_zero_size_early_return (oracle : Nat → GetReply) (fuel i : Nat)
    (h0 : (oracle i).status = ERROR_SUCCESS) (hsz : (oracle i).dataSize = 0) :
    getBinaryValueLoop oracle (fuel + 1) i = some (Except.ok [], i + 1)
    ∧ tryGetBinaryValueLoop oracle (fuel + 1) i = some (Except.ok [], i + 1) := by
  constructor
  · simp [getBinaryValueLoop, h0, hsz]
  · simp [tryGetBinaryValueLoop, h0, hsz]

/-- C10 (witness): the zero-size theorem applied to a concrete oracle whose
measuring call succeeds with size zero. -/
theorem binary_zero_size_witness :
    (c10Oracle 0).status = ERROR_SUCCESS ∧ (c10Oracle 0).dataSize = 0
    ∧ (getBinaryValueLoop c10Oracle 1 0 = some (Except.ok [], 1)
        ∧ tryGetBinaryValueLoop c10Oracle 1 0 = some (Except.ok [], 1)) :=
  ⟨rfl, rfl, binary_zero_size_early_return c10Oracle 0 0 rfl rfl⟩

theorem safeCastSizeToDword_overflow (n : Nat) (h : n > kMaxDwordValue) :
    safeCastSizeToDword n
      = Except.error (Thrown.overflowError "Overflow when casting size_t to DWORD.") := by
  simp [safeCastSizeToDword, sizeToDwordCastIsSafe, h]

theorem buildMultiString_singleton_length (s : List Nat) :
    (buildMultiString [s]).length = s.length + 2 := by
  simp [buildMultiString]

/-- C8: on the 64-bit target every setter whose transmitted byte count is
computed from a caller-supplied element count (string, expand-string,
multi-string, binary, and their try-forms) fails with the size-overflow error
before any `::RegSetValueExW` call is issued (the emitted call list is empty)
whenever the computed `size_t` byte count exceeds the largest `DWORD`. -/
theorem setters_guard_size_overflow (k : RegKey) (name data : List Nat)
    (mdata : List (List Nat)) (status : Nat) :
    ((data.length + 1) * 2 % SIZE_T_MOD > kMaxDwordValue →
        RegKey.setStringValue k name data status
          = (Except.error (Thrown.overflowError "Overflow when casting size_t to DWORD."), [])
        ∧ RegKey.trySetStringValue k name data status
          = (Except.error (Thrown.overflowError "Overflow when casting size_t to DWORD."), [])
        ∧ RegKey.setExpandStringValue k name data status
          = (Except.error (Thrown.overflowError "Overflow when casting size_t to DWORD."), [])
        ∧ RegKey.trySetExpandStringValue k name data status
          = (Except.error (Thrown.overflowError "Overflow when casting size_t to DWORD."), []))
    ∧ ((buildMultiString mdata).length * 2 % SIZE_T_MOD > kMaxDwordValue →
        RegKey.setMultiStringValue k name mdata status
          = (Except.error (Thrown.overflowError "Overflow when casting size_t to DWORD."), [])
        ∧ RegKey.trySetMultiStringValue k name mdata status
          = (Except.error (Thrown.overflowError "Overflow when casting size_t to DWORD."), []))
    ∧ (data.length % SIZE_T_MOD > kMaxDwordValue →
        RegKey.setBinaryValue k name data status
          = (Except.error (Thrown.overflowError "Overflow when casting size_t to DWORD."), [])
        ∧ RegKey.trySetBinaryValue k name data status
          = (Except.error (Thrown.overflowError "Overflow when casting size_t to DWORD."), [])) := by
  refine ⟨fun h => ⟨?_, ?_, ?_, ?_⟩, fun h => ⟨?_, ?_⟩, fun h => ⟨?_, ?_⟩⟩ <;>
    simp [RegKey.setStringValue, RegKey.trySetStringValue, RegKey.setExpandStringValue,
      RegKey.trySetExpandStringValue, RegKey.setMultiStringValue, RegKey.trySetMultiStringValue,
      RegKey.setBinaryValue, RegKey.trySetBinaryValue, safeCastSizeToDword_overflow _ h]

/-- C8 (witness): the overflow-guard theorem applied to a `2 ^ 33`-element
buffer, whose string, multi-string and binary transmitted sizes all exceed
the largest `DWORD`. -/
theorem setters_guard_witness :
    ((bigBytes.length + 1) * 2 % SIZE_T_MOD > kMaxDwordValue
      ∧ (buildMultiString [bigBytes]).length * 2 % SIZE_T_MOD > kMaxDwordValue
      ∧ bigBytes.length % SIZE_T_MOD > kMaxDwordValue)
    ∧ (RegKey.setStringValue ⟨5⟩ [] bigBytes ERROR_SUCCESS
        = (Except.error (Thrown.overflowError "Overflow when casting size_t to DWORD."), [])
      ∧ RegKey.setMultiStringValue ⟨5⟩ [] [bigBytes] ERROR_SUCCESS
        = (Except.error (Thrown.overflowError "Overflow when casting size_t to DWORD."), [])
      ∧ RegKey.setBinaryValue ⟨5⟩ [] bigBytes ERROR_SUCCESS
        = (Except.error (Thrown.overflowError "Overflow when casting size_t to DWORD."), [])) := by
  have hlen : bigBytes.length = 8589934592 := by
    rw [show bigBytes = List.replicate 8589934592 0 from rfl, List.length_replicate]
  have h1 : (bigBytes.length + 1) * 2 % SIZE_T_MOD > kMaxDwordValue := by
    rw [hlen]
    decide
  have h2 : (buildMultiString [bigBytes]).length * 2 % SIZE_T_MOD > kMaxDwordValue := by
    rw [buildMultiString_singleton_length, hlen]
    decide
  have h3 : bigBytes.length % SIZE_T_MOD > kMaxDwordValue := by
    rw [hlen]
    decide
  have hthm := setters_guard_size_overflow ⟨5⟩ [] bigBytes [bigBytes] ERROR_SUCCESS
  exact ⟨⟨h1, h2, h3⟩, (hthm.1 h1).1, (hthm.2.1 h2).1, (hthm.2.2 h3).1⟩

theorem stringWritesOf_append (a b : List RegOp) :
    stringWritesOf (a ++ b) = stringWritesOf a ++ stringWritesOf b := by
  simp [stringWritesOf, List.filterMap_append]

theorem stringWritesOf_extras (root : Nat) (sub : List Nat)
    (kvs : List (List Nat × List Nat)) :
    stringWritesOf (kvs.map (fun kv => RegOp.setStringValue root sub kv.1 kv.2))
      = kvs.map (fun kv => (sub, kv.1, kv.2)) := by
  induction kvs with
  | nil => rfl
  | cons kv rest ih => simp [stringWritesOf, List.filterMap_cons] at ih ⊢; exact ih

/-- C9 (counterexample): the `dplnk::dplnk` variant of the second unnamed
translation unit, invoked with path `[112]` and protocol `[109]` and no
extras, issues exactly two operations and writes no string entry carrying the
icon path — refuting the claim that every invocation writes the handler
description, the icon path and the command line. -/
theorem dplnkB_writes_no_icon_entry :
    (dplnkOpsB [112] [109] none).length = 2
    ∧ ((dplnkOpsB [112] [109] none).all (fun op =>
        match op with
        | RegOp.setStringValue _ _ _ v => v != ws "C:\\Windows\\System32\\url.dll,0"
        | RegOp.createKey _ _ => true)) = true := by
  constructor
  · rfl
  · decide

/-- C9 (amended): the variant of the first unnamed translation unit writes,
under `HKEY_CLASSES_ROOT` and via the throwing interface only, the handler
description, an empty `URL Protocol` marker, the icon path and the `%1`
command line, plus one string entry per caller-supplied extra pair; the
variant of the second unnamed translation unit writes, under
`HKEY_CURRENT_USER`, only the `%1` command line plus one string entry per
extra pair. -/
theorem dplnk_write_sets (path protocol : List Nat)
    (d : Option (List (List Nat × List Nat))) :
    stringWritesOf (dplnkOpsA path protocol d)
      = [(protocol, [], ws "URL: " ++ protocol ++ ws " Protocol"),
          (protocol, ws "URL Protocol", []),
          (protocol ++ ws "\\DefaultIcon", [], ws "C:\\Windows\\System32\\url.dll,0"),
          (protocol ++ ws "\\shell\\open\\command", [], ws "\"" ++ path ++ ws "\" %1")]
        ++ (match d with
            | none => []
            | some kvs => kvs.map (fun kv =>
                (protocol ++ ws "\\shell\\open\\command", kv.1, kv.2)))
    ∧ stringWritesOf (dplnkOpsB path protocol d)
      = [(protocol ++ ws "\\shell\\open\\command", [], ws "\"" ++ path ++ ws "\" %1")]
        ++ (match d with
            | none => []
            | some kvs => kvs.map (fun kv =>
                (protocol ++ ws "\\shell\\open\\command", kv.1, kv.2))) := by
  cases d with
  | none => exact ⟨rfl, rfl⟩
  | some kvs =>
      constructor <;>
      · simp only [dplnkOpsA, dplnkOpsB, stringWritesOf_append, stringWritesOf_extras]
        rfl
